import Mathlib

/-!
Verification of the customer-support healthcare intake repository.

The development shallowly embeds the task/conversation protocol engine:

* the A2A medical-triage server `triagev2.py`
  (`A2ATriageAgent.handle_message_send`, `handle_tasks_get`,
  `handle_tasks_cancel` and the task data model);
* the voice-agent turn loop `va_a2a_mcp.py` / `va_http_mcp.py`
  (`LLMClient.process`, the session-data merge and the discovery /
  eligibility gating inside `HealthcareAgent.start`);
* the insurance voice agent `va_mcp.py`
  (`Session.get_completion_percentage`).

External effects (LLM calls, HTTP transport, audio, clocks, uuid
generation) are passed in as explicit oracle arguments, so every
definition is executable and the registry / session state is threaded
explicitly.  Python dicts are modelled as association lists with
insertion-order semantics.
-/

/-- Python dict lookup `d.get(k)` over an association list. -/
def lookupAssoc {α : Type} (l : List (String × α)) (k : String) : Option α :=
  (l.find? (fun p => p.1 == k)).map (fun p => p.2)

/-- Python dict assignment `d[k] = v`: replace in place if the key is
present, otherwise append (insertion order preserved). -/
def assocSet {α : Type} : List (String × α) → String → α → List (String × α)
  | [], k, v => [(k, v)]
  | (k', v') :: rest, k, v =>
    if k' == k then (k, v) :: rest else (k', v') :: assocSet rest k v

/-!
## Triage A2A server (`triagev2.py`)

Data model of `TaskState`, `A2AMessage`, `TaskStatus`, `Artifact`,
`A2ATask` and the registry `self.tasks` / `self.contexts` of
`A2ATriageAgent`.  Wall-clock time (`datetime.now()`) is modelled by a
`Nat` passed to each operation; uuid generation by explicit fresh-name
arguments.
-/

/-- `TaskState` enum of `triagev2.py`. -/
inductive TaskState
  | submitted
  | working
  | inputRequired
  | completed
  | canceled
  | failed
  | rejected
  | authRequired
  | unknown
deriving DecidableEq, Repr

/-- Message parts (`TextPart` / `FilePart` / `DataPart`), the tagged
union carried by messages and artifacts. -/
inductive MsgPart
  | text (s : String)
  | file (f : List (String × String))
  | data (d : List (String × String))
deriving DecidableEq, Repr

/-- `A2AMessage` dataclass (role, parts, ids and back-references). -/
structure A2AMessage where
  role : String
  parts : List MsgPart
  messageId : String
  taskId : Option String := none
  contextId : Option String := none
deriving DecidableEq, Repr

/-- `TaskStatus` dataclass: the `timestamp` field is filled by a
`datetime.now()` default factory when the status object is constructed
and is modelled as the `Nat` time of that construction. -/
structure TaskStatus where
  state : TaskState
  message : Option A2AMessage := none
  timestamp : Nat
deriving DecidableEq, Repr

/-- `Artifact` dataclass (identifier generation elided; claims depend
only on the artifact list length and payload). -/
structure Artifact where
  name : Option String := none
  description : Option String := none
  parts : List MsgPart := []
deriving DecidableEq, Repr

/-- `A2ATask` dataclass.  The medical-triage scratch fields
(`patient_name`, `symptoms`, `severity_score`, ...) are written only by
the AI-driven `_process_triage_message` and read back into artifacts;
they are summarised by `currentStage` (`current_stage` in the source),
the one scratch field `handle_message_send` itself writes. -/
structure A2ATask where
  id : String
  contextId : String
  status : TaskStatus
  history : List A2AMessage := []
  artifacts : List Artifact := []
  currentStage : String := "initial"
deriving DecidableEq, Repr

/-- The mutable registry of `A2ATriageAgent`: `self.tasks` and
`self.contexts`, both Python dicts. -/
structure AgentState where
  tasks : List (String × A2ATask) := []
  contexts : List (String × List String) := []
deriving DecidableEq, Repr

/-- The empty registry the agent starts with. -/
def initialAgentState : AgentState := {}

/-- `self.tasks[tid]` lookup. -/
def lookupTask (st : AgentState) (tid : String) : Option A2ATask :=
  lookupAssoc st.tasks tid

/-- The guard `task_id and task_id in self.tasks` shared by the three
handlers (an absent or empty `taskId`, or an id not in the registry,
fails the guard). -/
def taskByOptId (st : AgentState) (tid? : Option String) : Option (String × A2ATask) :=
  match tid? with
  | none => none
  | some tid =>
    if tid == "" then none
    else (lookupTask st tid).map (fun t => (tid, t))

/-- Membership test of `task.status.state` in
`[TaskState.COMPLETED, TaskState.FAILED, TaskState.CANCELED]`, the list
both `handle_message_send` and `handle_tasks_cancel` guard on. -/
def terminalState (s : TaskState) : Bool :=
  s == .completed || s == .failed || s == .canceled

/-- JSON-RPC error objects built by `_create_error_response`. -/
structure ErrObj where
  code : Int
  message : String
deriving DecidableEq, Repr

/-- `message/send` returns either the task dict or the latest status
message dict, depending on `configuration.blocking` and the state. -/
inductive SendResult
  | task (t : A2ATask)
  | message (m : A2AMessage)
deriving DecidableEq, Repr

/-- Parameters of a `message/send` request after JSON extraction
(lines 467-475): `messageId` is the client-supplied id or the fresh
uuid defaulted in its place. -/
structure SendParams where
  role : String := "user"
  parts : List MsgPart := []
  messageId : String
  taskId : Option String := none
  contextId : Option String := none
  blocking : Bool := false
deriving DecidableEq, Repr

/-- Result of `_process_triage_message(task, user_input)`.  That
function's branching is driven by the external LLM, so its result dict
(`response`, `triage_complete`, `emergency_alert`, `recommendation`,
`urgency_level`, `doctor_type`) together with the stage it leaves in
`task.current_stage` is supplied as an oracle.  Python truthiness of
the string fields is the `≠ ""` test. -/
structure TriageOutcome where
  response : String := ""
  triage_complete : Bool := false
  emergency_alert : Bool := false
  recommendation : String := ""
  urgency_level : String := ""
  doctor_type : String := ""
  stageAfter : String := "initial"
deriving DecidableEq, Repr

/-- The artifact built at lines 521-536 when triage completes with a
recommendation (task-scratch data fields elided, see `A2ATask`). -/
def triageArtifact (outcome : TriageOutcome) : Artifact :=
  { name := some "Triage Assessment"
    description := some "Medical triage assessment and recommendations"
    parts := [MsgPart.data
      [("urgency_level", outcome.urgency_level),
       ("doctor_type", outcome.doctor_type),
       ("recommendation", outcome.recommendation)]] }

/-- Lines 510-552 of `handle_message_send`, applied to a task that
already has the inbound message appended: run
`_process_triage_message` (oracle), update the status state, possibly
append the completion artifact, and possibly append the agent response
message, setting it as `task.status.message`.  The status `timestamp`
field is not touched anywhere on this path. -/
def updateAfterProcess (task : A2ATask) (task_id : String) (context_id : Option String)
    (freshRespMsgId : String) (outcome : TriageOutcome) : A2ATask :=
  let task := { task with currentStage := outcome.stageAfter }
  let task :=
    if outcome.triage_complete then
      let t := { task with
        status := { task.status with state := .completed }
        currentStage := "complete" }
      if outcome.recommendation == "" then t
      else { t with artifacts := t.artifacts ++ [triageArtifact outcome] }
    else if outcome.emergency_alert then
      { task with
        status := { task.status with state := .completed }
        currentStage := "complete" }
    else
      { task with status := { task.status with state := .inputRequired } }
  if outcome.response == "" then task
  else
    let rm : A2AMessage :=
      { role := "agent"
        parts := [MsgPart.text outcome.response]
        messageId := freshRespMsgId
        taskId := some task_id
        contextId := context_id }
    { task with
      history := task.history ++ [rm]
      status := { task.status with message := some rm } }

/-- Line 555-558: return the task dict when blocking or completed,
else the latest status message (falling back to the task). -/
def sendReturn (blocking : Bool) (t : A2ATask) : Except ErrObj SendResult :=
  if blocking || t.status.state == .completed then .ok (.task t)
  else
    match t.status.message with
    | some m => .ok (.message m)
    | none => .ok (.task t)

/-- The inbound `A2AMessage` built from the request at lines 478-484. -/
def inboundMessage (p : SendParams) : A2AMessage :=
  { role := p.role, parts := p.parts, messageId := p.messageId
    taskId := p.taskId, contextId := p.contextId }

/-- The task an existing-task `message/send` leaves in the registry:
the inbound message appended, then lines 510-552 applied. -/
def continuedTask (task : A2ATask) (task_id : String) (p : SendParams)
    (freshRespMsgId : String) (outcome : TriageOutcome) : A2ATask :=
  updateAfterProcess { task with history := task.history ++ [inboundMessage p] }
    task_id p.contextId freshRespMsgId outcome

/-- The effective context id of the task-creation branch: the provided
`contextId` when truthy (`if not context_id:` test), else the fresh
`contextId` the new `A2ATask()` drew. -/
def sendContextId (p : SendParams) (freshCtxId : String) : String :=
  match p.contextId with
  | some c => if c != "" then c else freshCtxId
  | none => freshCtxId

/-- The task the creation branch of `message/send` leaves in the
registry: a fresh `A2ATask()` in `SUBMITTED` with a status stamped
`now`, the (re-targeted) inbound message appended, then lines 510-552
applied. -/
def createdTask (p : SendParams) (freshTaskId freshCtxId freshRespMsgId : String)
    (outcome : TriageOutcome) (now : Nat) : A2ATask :=
  let task0 : A2ATask :=
    { id := freshTaskId
      contextId := freshCtxId
      status := { state := .submitted, message := none, timestamp := now }
      history := []
      artifacts := []
      currentStage := "initial" }
  let context_id := sendContextId p freshCtxId
  let msg := { inboundMessage p with
    taskId := some freshTaskId, contextId := some context_id }
  updateAfterProcess { task0 with history := [msg] }
    freshTaskId (some context_id) freshRespMsgId outcome

/-- `A2ATriageAgent.handle_message_send` (lines 464-558).
`freshTaskId` / `freshCtxId` model the uuids a new `A2ATask()` draws,
`freshRespMsgId` the uuid of the agent response message, `now` the
`datetime.now()` of the new status object, and `outcome` the
`_process_triage_message` result.  Returns the JSON-RPC result or
error, paired with the registry after the call. -/
def handle_message_send (st : AgentState) (p : SendParams)
    (freshTaskId freshCtxId freshRespMsgId : String)
    (outcome : TriageOutcome) (now : Nat) :
    Except ErrObj SendResult × AgentState :=
  match taskByOptId st p.taskId with
  | some (task_id, task) =>
    if terminalState task.status.state then
      (.error { code := -32002, message := "Task cannot be restarted" }, st)
    else
      let t2 := continuedTask task task_id p freshRespMsgId outcome
      (sendReturn p.blocking t2, { st with tasks := assocSet st.tasks task_id t2 })
  | none =>
    let t2 := createdTask p freshTaskId freshCtxId freshRespMsgId outcome now
    let context_id := sendContextId p freshCtxId
    let newCtxList := (lookupAssoc st.contexts context_id).getD [] ++ [freshTaskId]
    (sendReturn p.blocking t2,
      { tasks := assocSet st.tasks freshTaskId t2
        contexts := assocSet st.contexts context_id newCtxList })

/-- Parameters of a `tasks/get` request: `params.get("id")` and
`params.get("historyLength", 10)` — `none` models an absent
`historyLength` key, which the source defaults to `10`. -/
structure GetParams where
  id : Option String := none
  historyLength : Option Nat := none
deriving DecidableEq, Repr

/-- `A2ATriageAgent.handle_tasks_get` (lines 564-585).  Read-only: the
registry is not modified; on truncation a copy of the task is returned
with the last `history_length` entries. -/
def handle_tasks_get (st : AgentState) (p : GetParams) : Except ErrObj A2ATask :=
  let history_length := p.historyLength.getD 10
  match taskByOptId st p.id with
  | none => .error { code := -32001, message := "Task not found" }
  | some (_, task) =>
    if history_length != 0 && decide (task.history.length > history_length) then
      .ok { task with history := task.history.drop (task.history.length - history_length) }
    else
      .ok task

/-- The task a successful `tasks/cancel` leaves in the registry
(lines 600-606): state set to `CANCELED`, a fresh status message
attached; history, artifacts and status timestamp untouched. -/
def canceledVersion (task : A2ATask) (task_id freshMsgId : String) : A2ATask :=
  let cm : A2AMessage :=
    { role := "agent"
      parts := [MsgPart.text "Task has been canceled."]
      messageId := freshMsgId
      taskId := some task_id
      contextId := some task.contextId }
  { task with
    status := { task.status with state := .canceled, message := some cm } }

/-- `A2ATriageAgent.handle_tasks_cancel` (lines 587-612): the lookup
guard, the terminal-state guard, then `canceledVersion` is stored
(`now` is the call time, never consulted by this path). -/
def handle_tasks_cancel (st : AgentState) (tid? : Option String)
    (freshMsgId : String) (now : Nat) : Except ErrObj A2ATask × AgentState :=
  match taskByOptId st tid? with
  | none => (.error { code := -32001, message := "Task not found" }, st)
  | some (task_id, task) =>
    if terminalState task.status.state then
      (.error { code := -32002, message := "Task cannot be canceled" }, st)
    else
      let t2 := canceledVersion task task_id freshMsgId
      (.ok t2, { st with tasks := assocSet st.tasks task_id t2 })

/-- One inbound protocol operation against the agent, with all oracle
inputs attached. -/
inductive Op
  | send (p : SendParams) (freshTaskId freshCtxId freshRespMsgId : String)
      (outcome : TriageOutcome) (now : Nat)
  | cancel (tid? : Option String) (freshMsgId : String) (now : Nat)
  | get (p : GetParams)

/-- The registry after one operation (`tasks/get` never mutates it). -/
def stepState (st : AgentState) : Op → AgentState
  | .send p f1 f2 f3 outcome now => (handle_message_send st p f1 f2 f3 outcome now).2
  | .cancel tid? fm now => (handle_tasks_cancel st tid? fm now).2
  | .get _ => st

/-- Freshness side condition on an operation: when `message/send` takes
its task-creation branch, the uuid it draws is not already a registry
key (uuids are fresh in the source; a collision would overwrite). -/
def opFresh (st : AgentState) : Op → Bool
  | .send p f1 _ _ _ _ =>
    match taskByOptId st p.taskId with
    | some _ => true
    | none => (lookupTask st f1).isNone
  | _ => true

/-- Registry states reachable from the empty registry by any
interleaving of protocol operations. -/
inductive ReachableState : AgentState → Prop
  | init : ReachableState initialAgentState
  | step {st : AgentState} (op : Op) : ReachableState st → ReachableState (stepState st op)

/-- The §4.1 transition graph as amended by the code: a transition may
stay in place, leave `Submitted` for `InputRequired`, `Completed` or
`Failed`, or leave `InputRequired` for `Completed`, `Failed` or
`Canceled`; terminal states admit no move. -/
def transOK (s s' : TaskState) : Prop :=
  s = s' ∨
  (s = .submitted ∧ (s' = .inputRequired ∨ s' = .completed ∨ s' = .failed)) ∨
  (s = .inputRequired ∧ (s' = .completed ∨ s' = .failed ∨ s' = .canceled))

/-- Boolean result discriminator for counterexample statements. -/
def exceptIsOk {ε α : Type} : Except ε α → Bool
  | .ok _ => true
  | .error _ => false

/-!
## Voice agent (`va_a2a_mcp.py`, with the merge of `va_http_mcp.py`)

`LLMClient.process`, the session-data merge and the turn loop of
`HealthcareAgent.start`.  HTTP transport, LLM output, the triage A2A
client and the insurance MCP calls are oracle inputs.  Apostrophes
occurring inside source message strings are elided when the text is
reproduced here.
-/

/-- The parsed LLM result dict of the voice agents
(`response` / `extract` / `need_triage` / `call_discovery` /
`call_eligibility` / `done`). -/
structure LLMResult where
  response : String := ""
  extract : List (String × String) := []
  need_triage : Bool := false
  call_discovery : Bool := false
  call_eligibility : Bool := false
  done : Bool := false
deriving DecidableEq, Repr

/-- The canned fallback dict returned at the end of
`LLMClient.process` (`va_a2a_mcp.py` lines 465-472). -/
def cannedFallback : LLMResult :=
  { response := "I understand. Please continue."
    extract := []
    need_triage := false
    call_discovery := false
    call_eligibility := false
    done := false }

/-- What the `requests.post` call inside `LLMClient.process` did:
either the library raised (timeout, connection error, ...), or it
returned a response with a status code, an optional
`choices[0].message.content` string, and — when the content is present
— the result of `json.loads` on it (`none` = unparseable). -/
inductive LLMTransport
  | raised (msg : String)
  | response (status : Nat) (choicesContent : Option String) (parsed : Option LLMResult)

/-- `LLMClient.process` (`va_a2a_mcp.py` lines 378-472): the request is
issued with no surrounding try/except, so a raised transport exception
propagates to the caller (modelled as `Except.error`); a non-200
status, missing choices, or a `json.loads` failure (caught by the bare
`except`) all fall through to the canned fallback dict. -/
def LLMClient_process (t : LLMTransport) : Except String LLMResult :=
  match t with
  | .raised msg => .error msg
  | .response status choicesContent parsed =>
    if status == 200 then
      match choicesContent with
      | some _ =>
        match parsed with
        | some r => .ok r
        | none => .ok cannedFallback
      | none => .ok cannedFallback
    else .ok cannedFallback

/-- The session-data merge of `va_a2a_mcp.py` lines 684-688: for each
extracted pair, `if value:` guards the dict assignment, so only
non-empty values are written (and each write is printed with the new
value only). -/
def mergeExtract_a2a (data extract : List (String × String)) : List (String × String) :=
  extract.foldl (fun d kv => if kv.2 != "" then assocSet d kv.1 kv.2 else d) data

/-- The session-data merge of `va_http_mcp.py` line 856:
`self.session.data.update(llm_result["extract"])` writes every
returned pair unconditionally. -/
def mergeExtract_http (data extract : List (String × String)) : List (String × String) :=
  extract.foldl (fun d kv => assocSet d kv.1 kv.2) data

/-- First-of-two option fallback (used to state merge results). -/
def orElseOpt (a b : Option String) : Option String :=
  match a with
  | some v => some v
  | none => b

/-- Last value an extract list assigns to `k` (what a Python dict
update ends at). -/
def lastValue : List (String × String) → String → Option String
  | [], _ => none
  | p :: rest, k =>
    orElseOpt (lastValue rest k) (if p.1 == k then some p.2 else none)

/-- Last non-empty value an extract list assigns to `k`. -/
def lastNonEmptyValue (extract : List (String × String)) (k : String) : Option String :=
  lastValue (extract.filter (fun p => p.2 != "")) k

/-- `Session` of `va_a2a_mcp.py` (the fields the turn loop reads and
writes; `conversation_log` keeps `(role, message)` pairs of
`add_interaction`). -/
structure VoiceSession where
  data : List (String × String) := []
  conversation_log : List (String × String) := []
  triage_complete : Bool := false
  triage_attempts : Nat := 0
  in_triage_mode : Bool := false
  triage_task_id : Option String := none
  triage_context_id : Option String := none
  triage_results : List (String × String) := []
deriving DecidableEq, Repr

/-- `Session.add_interaction` (timestamp and snapshot metadata
elided). -/
def addInteraction (s : VoiceSession) (role msg : String) : VoiceSession :=
  { s with conversation_log := s.conversation_log ++ [(role, msg)] }

/-- `Session._end_triage_mode`-equivalent helper of the agent
(`_end_triage_mode`, lines 855-868): leave triage mode, mark triage
complete, clear the correlation ids, optionally speak a message. -/
def endTriageMode (s : VoiceSession) (message : Option String) : VoiceSession :=
  let s := { s with
    in_triage_mode := false
    triage_complete := true
    triage_task_id := none
    triage_context_id := none }
  match message with
  | some m => addInteraction s "assistant" m
  | none => s

/-- What the A2A `send_message` inside `_start_integrated_triage`
returned (`raised` models an exception inside the try block, taken
after the intro was spoken). -/
inductive TriageStartOutcome
  | raised
  | noResult
  | task (tid cid question : String)
  | notTask
deriving DecidableEq, Repr

/-- Intro line of `_start_integrated_triage`. -/
def triageIntro : String :=
  "I need to do a quick medical assessment to better assist you. Let me ask you a few health-related questions."

/-- `HealthcareAgent._start_integrated_triage` (lines 756-794):
increments `triage_attempts`, raises the in-triage flag, then starts
the A2A sub-dialog; a missing result or an exception immediately ends
triage mode with a fallback line. -/
def startIntegratedTriage (s : VoiceSession) (o : TriageStartOutcome) : VoiceSession :=
  let s := { s with triage_attempts := s.triage_attempts + 1, in_triage_mode := true }
  let s := addInteraction s "assistant" triageIntro
  match o with
  | .raised => endTriageMode s (some "Let me help you schedule your appointment.")
  | .noResult => endTriageMode s (some "Ill help you schedule your appointment without the assessment.")
  | .task tid cid q =>
    let s := { s with triage_task_id := some tid, triage_context_id := some cid }
    if q != "" then addInteraction s "assistant" q else s
  | .notTask => s

/-- What the A2A `send_message` inside `_handle_triage_conversation`
returned: nothing, a task in one of the compared states (with its
status-message text / first artifact data part), some other state, or
an exception. -/
inductive TriageContOutcome
  | raised
  | noResult
  | completedRes (artifactData : List (String × String))
  | inputRequiredRes (message? : Option String)
  | failedOrCanceled
  | otherState
deriving DecidableEq, Repr

/-- `HealthcareAgent._handle_triage_conversation` (lines 796-853). -/
def handleTriageConversation (s : VoiceSession) (o : TriageContOutcome) : VoiceSession :=
  match o with
  | .raised => endTriageMode s (some "Let me help you continue with scheduling your appointment.")
  | .noResult => endTriageMode s (some "Let me help you continue with scheduling your appointment.")
  | .completedRes artifactData =>
    let s :=
      if artifactData.isEmpty then s
      else { s with triage_results := mergeExtract_http s.triage_results artifactData }
    let urgency := (lookupAssoc s.triage_results "urgency_level").getD "standard"
    let doctor_type := (lookupAssoc s.triage_results "doctor_type").getD "general practitioner"
    let s := endTriageMode s none
    addInteraction s "assistant"
      ("Thank you for the assessment. Based on your responses, I recommend seeing a "
        ++ doctor_type ++ ". Priority level: " ++ urgency
        ++ ". Now lets get you scheduled. Ill need your date of birth for insurance verification.")
  | .inputRequiredRes message? =>
    match message? with
    | some q => if q != "" then addInteraction s "assistant" q else s
    | none => endTriageMode s (some "Let me help you continue with scheduling your appointment.")
  | .failedOrCanceled => endTriageMode s (some "Let me help you continue with scheduling your appointment.")
  | .otherState => s

/-- `await self.audio.listen(...)` result for a turn. -/
inductive ListenResult
  | unclear
  | timedOut
  | audioError
  | empty
  | heard (s : String)
deriving DecidableEq, Repr

/-- All oracle inputs one loop iteration can consume. -/
structure TurnOracle where
  listen : ListenResult
  llm : Except String LLMResult := .ok cannedFallback
  triageStart : TriageStartOutcome := .noResult
  triageCont : TriageContOutcome := .noResult
  discoveryOk : Bool := false
  discoveryPayer : String := ""
  discoveryMemberId : String := ""
  eligibilityOk : Bool := false
  eligibilityCopay : String := ""
  confirmation : String := ""
deriving Repr

/-- State of the `while` loop in `HealthcareAgent.start`: the session,
the local `errors` counter, whether the loop has exited (`break`), and
whether an uncaught exception escaped the loop body. -/
structure LoopState where
  session : VoiceSession := {}
  errors : Nat := 0
  halted : Bool := false
  crashed : Bool := false
  a2aAvailable : Bool := true
deriving Repr

/-- Which external calls fired during a turn. -/
structure TurnEffects where
  discoveryFired : Bool := false
  eligibilityFired : Bool := false
deriving DecidableEq, Repr

/-- The gate `all(k in self.session.data and self.session.data[k] for k
in required)` of `va_a2a_mcp.py`: all keys present with truthy
(non-empty) values. -/
def requiredPresent (data : List (String × String)) (keys : List String) : Bool :=
  keys.all (fun k =>
    match lookupAssoc data k with
    | some v => v != ""
    | none => false)

/-- ASCII lower-casing of one character (`str.lower()` on the ASCII
inputs the loop compares against). -/
def lowerChar (c : Char) : Char :=
  if c.isUpper then Char.ofNat (c.toNat + 32) else c

/-- `str.lower()`. -/
def lowerStr (s : String) : String :=
  String.mk (s.data.map lowerChar)

/-- Substring occurrence over character lists (`needle in hay`). -/
def substrB : List Char → List Char → Bool
  | n, [] => n.isEmpty
  | n, c :: rest => n.isPrefixOf (c :: rest) || substrB n rest

/-- The goodbye-phrase scan of the loop:
`any(phrase in user_input.lower() for phrase in [...])`. -/
def containsGoodbye (u : String) : Bool :=
  ["bye", "goodbye", "end", "quit"].any (fun p => substrB p.data (lowerStr u).data)


/-- One iteration of the `while` loop body of `HealthcareAgent.start`
(`va_a2a_mcp.py` lines 657-748), returning the new loop state and
which insurance calls fired.  Unclear/timed-out/erroneous audio bumps
the error counter; recognised input resets it, is logged, and is
routed to the triage sub-dialog when `in_triage_mode`, otherwise
through `LLMClient.process` (whose uncaught exception crashes the
loop), the extract merge, the triage-start gate, the discovery and
eligibility gates, the spoken response, and the `done` check. -/
def runTurn (ls : LoopState) (o : TurnOracle) : LoopState × TurnEffects :=
  match o.listen with
  | .unclear => ({ ls with errors := ls.errors + 1 }, {})
  | .timedOut => ({ ls with errors := ls.errors + 1 }, {})
  | .audioError => ({ ls with errors := ls.errors + 1 }, {})
  | .empty => (ls, {})
  | .heard u =>
    let ls := { ls with errors := 0 }
    let s := addInteraction ls.session "user" u
    if containsGoodbye u then
      let s := addInteraction s "assistant" "Thank you for calling. Have a great day!"
      ({ ls with session := s, halted := true }, {})
    else if s.in_triage_mode then
      ({ ls with session := handleTriageConversation s o.triageCont }, {})
    else
      match o.llm with
      | .error _ => ({ ls with session := s, crashed := true }, {})
      | .ok r =>
        let s := { s with data := mergeExtract_a2a s.data r.extract }
        if r.need_triage && !s.triage_complete && decide (s.triage_attempts < 1)
            && ls.a2aAvailable then
          ({ ls with session := startIntegratedTriage s o.triageStart }, {})
        else
          let discReady := r.call_discovery
            && requiredPresent s.data ["name", "date_of_birth", "state"]
          let s :=
            if discReady then
              if o.discoveryOk then
                let d2 := assocSet (assocSet s.data "payer" o.discoveryPayer)
                  "member_id" o.discoveryMemberId
                let s := { s with data := d2 }
                addInteraction s "assistant"
                  ("Great! I found your insurance: " ++ o.discoveryPayer
                    ++ ", Policy ID: " ++ o.discoveryMemberId ++ ".")
              else
                addInteraction s "assistant"
                  "I had some trouble finding your insurance, but we can proceed."
            else s
          let eligReady := r.call_eligibility
            && requiredPresent s.data
              ["name", "date_of_birth", "member_id", "payer", "provider_name"]
          let s :=
            if eligReady then
              if o.eligibilityOk && o.eligibilityCopay != "" then
                addInteraction s "assistant"
                  ("Perfect! Your insurance is verified. Payer: "
                    ++ (lookupAssoc s.data "payer").getD ""
                    ++ ", Policy ID: " ++ (lookupAssoc s.data "member_id").getD ""
                    ++ ", Your copay will be $" ++ o.eligibilityCopay ++ ".")
              else
                addInteraction s "assistant"
                  ("Your insurance " ++ (lookupAssoc s.data "payer").getD ""
                    ++ " with Policy ID " ++ (lookupAssoc s.data "member_id").getD ""
                    ++ " is on file. We can proceed with scheduling.")
            else s
          let s := if r.response != "" then addInteraction s "assistant" r.response else s
          if r.done then
            let s := addInteraction s "assistant"
              ("Excellent! Your appointment is confirmed. Confirmation number: "
                ++ o.confirmation
                ++ ". Youll receive an email confirmation shortly. Thank you for calling!")
            ({ ls with session := s, halted := true },
              { discoveryFired := discReady, eligibilityFired := eligReady })
          else
            ({ ls with session := s },
              { discoveryFired := discReady, eligibilityFired := eligReady })

/-- Run the loop over a sequence of turns (its length standing in for
the 50-turn cap), honouring the `while turn < 50 and errors < 3`
condition and any `break`/crash, and count how many discovery calls
fired in the session. -/
def runTurns (ls : LoopState) : List TurnOracle → LoopState × Nat
  | [] => (ls, 0)
  | o :: rest =>
    if ls.halted || ls.crashed || decide (ls.errors ≥ 3) then (ls, 0)
    else
      let step := runTurn ls o
      let restRun := runTurns step.1 rest
      (restRun.1, (if step.2.discoveryFired then 1 else 0) + restRun.2)

/-!
## Insurance voice agent (`insurance-agent/infinitus/va_mcp.py`)
-/

/-- The fixed required-field list of
`Session.get_completion_percentage` (line 65). -/
def va_required_fields : List String :=
  ["name", "phone", "reason", "date_of_birth", "state", "provider_name",
   "preferred_date", "preferred_time"]

/-- `Session.get_completion_percentage` (lines 63-67): the count of
required fields with truthy values over the list length, times 100.
The Python float arithmetic is exact here (denominator 8), so `ℚ`
models it faithfully; the function reads `self.data` and touches
nothing. -/
def get_completion_percentage (data : List (String × String)) : ℚ :=
  let completed := (va_required_fields.filter (fun f =>
    match lookupAssoc data f with
    | some v => v != ""
    | none => false)).length
  ((completed : ℚ) / (va_required_fields.length : ℚ)) * 100

-- THEOREMS-BEGIN

theorem lookupAssoc_assocSet {α : Type} (l : List (String × α)) (k : String) (v : α)
    (k' : String) :
    lookupAssoc (assocSet l k v) k' = if k' == k then some v else lookupAssoc l k' := by
  induction l with
  | nil =>
    by_cases h : k' = k
    · subst h; simp [assocSet, lookupAssoc, List.find?]
    · have h1 : (k == k') = false := by simp; exact fun e => h e.symm
      have h2 : (k' == k) = false := by simp [h]
      simp [assocSet, lookupAssoc, List.find?, h1, h2]
  | cons hd tl ih =>
    obtain ⟨hk, hv⟩ := hd
    by_cases h1 : hk = k
    · subst h1
      by_cases h2 : k' = hk
      · subst h2; simp [assocSet, lookupAssoc, List.find?]
      · have ha : (hk == k') = false := by simp; exact fun e => h2 e.symm
        have hb : (k' == hk) = false := by simp [h2]
        simp [assocSet, lookupAssoc, List.find?, ha, hb]
    · have hc : (hk == k) = false := by simp [h1]
      by_cases h2 : k' = hk
      · subst h2
        have hd' : (k' == k) = false := by
          simp; intro e; exact h1 e
        simp [assocSet, lookupAssoc, List.find?, hc, hd']
      · have ha : (hk == k') = false := by simp; exact fun e => h2 e.symm
        simp only [assocSet, hc, Bool.false_eq_true, if_false]
        simp only [lookupAssoc, List.find?, ha] at ih ⊢
        exact ih

theorem length_assocSet_of_absent {α : Type} (l : List (String × α)) (k : String) (v : α)
    (h : lookupAssoc l k = none) :
    (assocSet l k v).length = l.length + 1 := by
  induction l with
  | nil => simp [assocSet]
  | cons hd tl ih =>
    obtain ⟨hk, hv⟩ := hd
    by_cases h1 : hk = k
    · subst h1
      simp [lookupAssoc, List.find?] at h
    · simp only [lookupAssoc, List.find?] at h
      have h2 : (hk == k) = false := by simp [h1]
      rw [h2] at h
      simp only [assocSet, h2, Bool.false_eq_true, if_false, List.length_cons]
      rw [ih h]

/-!
## Helper lemmas
-/

theorem updateAfterProcess_state (t : A2ATask) (tid : String) (cid : Option String)
    (fm : String) (o : TriageOutcome) :
    (updateAfterProcess t tid cid fm o).status.state = .completed ∨
    (updateAfterProcess t tid cid fm o).status.state = .inputRequired := by
  unfold updateAfterProcess
  by_cases h1 : o.triage_complete <;> by_cases h2 : o.recommendation == "" <;>
    by_cases h3 : o.emergency_alert <;> by_cases h4 : o.response == "" <;>
      simp [h1, h2, h3, h4]

theorem updateAfterProcess_timestamp (t : A2ATask) (tid : String) (cid : Option String)
    (fm : String) (o : TriageOutcome) :
    (updateAfterProcess t tid cid fm o).status.timestamp = t.status.timestamp := by
  unfold updateAfterProcess
  by_cases h1 : o.triage_complete <;> by_cases h2 : o.recommendation == "" <;>
    by_cases h3 : o.emergency_alert <;> by_cases h4 : o.response == "" <;>
      simp [h1, h2, h3, h4]

theorem updateAfterProcess_id (t : A2ATask) (tid : String) (cid : Option String)
    (fm : String) (o : TriageOutcome) :
    (updateAfterProcess t tid cid fm o).id = t.id := by
  unfold updateAfterProcess
  by_cases h1 : o.triage_complete <;> by_cases h2 : o.recommendation == "" <;>
    by_cases h3 : o.emergency_alert <;> by_cases h4 : o.response == "" <;>
      simp [h1, h2, h3, h4]

theorem exceptIsOk_sendReturn (b : Bool) (t : A2ATask) :
    exceptIsOk (sendReturn b t) = true := by
  unfold sendReturn exceptIsOk
  by_cases h : (b || t.status.state == .completed) = true
  · simp [h]
  · cases hm : t.status.message <;> simp [h, hm]

theorem taskByOptId_some {st : AgentState} {tid? : Option String} {tid : String}
    {task : A2ATask} (h : taskByOptId st tid? = some (tid, task)) :
    lookupTask st tid = some task := by
  unfold taskByOptId at h
  cases tid? with
  | none => cases h
  | some s =>
    by_cases hs : (s == "") = true
    · simp [hs] at h
    · simp only [hs, Bool.false_eq_true, if_false] at h
      cases hl : lookupTask st s with
      | none => rw [hl] at h; cases h
      | some u =>
        rw [hl] at h
        have hp : (s, u) = (tid, task) := Option.some.inj h
        have e1 : s = tid := congrArg Prod.fst hp
        have e2 : u = task := congrArg Prod.snd hp
        subst e1; subst e2; exact hl

theorem continuedTask_state (task : A2ATask) (task_id : String) (p : SendParams)
    (fm : String) (o : TriageOutcome) :
    (continuedTask task task_id p fm o).status.state = .completed ∨
    (continuedTask task task_id p fm o).status.state = .inputRequired :=
  updateAfterProcess_state _ _ _ _ _

theorem continuedTask_timestamp (task : A2ATask) (task_id : String) (p : SendParams)
    (fm : String) (o : TriageOutcome) :
    (continuedTask task task_id p fm o).status.timestamp = task.status.timestamp :=
  updateAfterProcess_timestamp _ _ _ _ _

theorem createdTask_state (p : SendParams) (f1 f2 f3 : String) (o : TriageOutcome)
    (now : Nat) :
    (createdTask p f1 f2 f3 o now).status.state = .completed ∨
    (createdTask p f1 f2 f3 o now).status.state = .inputRequired :=
  updateAfterProcess_state _ _ _ _ _

theorem createdTask_timestamp (p : SendParams) (f1 f2 f3 : String) (o : TriageOutcome)
    (now : Nat) :
    (createdTask p f1 f2 f3 o now).status.timestamp = now :=
  updateAfterProcess_timestamp _ _ _ _ _

theorem createdTask_id (p : SendParams) (f1 f2 f3 : String) (o : TriageOutcome)
    (now : Nat) :
    (createdTask p f1 f2 f3 o now).id = f1 :=
  updateAfterProcess_id _ _ _ _ _

theorem canceledVersion_state (task : A2ATask) (task_id fm : String) :
    (canceledVersion task task_id fm).status.state = .canceled := rfl

theorem canceledVersion_timestamp (task : A2ATask) (task_id fm : String) :
    (canceledVersion task task_id fm).status.timestamp = task.status.timestamp := rfl

theorem handle_message_send_terminal {st : AgentState} {p : SendParams}
    {task_id : String} {task : A2ATask} (f1 f2 f3 : String) (o : TriageOutcome) (now : Nat)
    (hk : taskByOptId st p.taskId = some (task_id, task))
    (hterm : terminalState task.status.state = true) :
    handle_message_send st p f1 f2 f3 o now =
      (.error { code := -32002, message := "Task cannot be restarted" }, st) := by
  simp [handle_message_send, hk, hterm]

theorem handle_message_send_live {st : AgentState} {p : SendParams}
    {task_id : String} {task : A2ATask} (f1 f2 f3 : String) (o : TriageOutcome) (now : Nat)
    (hk : taskByOptId st p.taskId = some (task_id, task))
    (hterm : terminalState task.status.state = false) :
    handle_message_send st p f1 f2 f3 o now =
      (sendReturn p.blocking (continuedTask task task_id p f3 o),
        { st with tasks := assocSet st.tasks task_id (continuedTask task task_id p f3 o) }) := by
  simp [handle_message_send, hk, hterm]

theorem handle_message_send_new {st : AgentState} {p : SendParams}
    (f1 f2 f3 : String) (o : TriageOutcome) (now : Nat)
    (hk : taskByOptId st p.taskId = none) :
    handle_message_send st p f1 f2 f3 o now =
      (sendReturn p.blocking (createdTask p f1 f2 f3 o now),
        { tasks := assocSet st.tasks f1 (createdTask p f1 f2 f3 o now)
          contexts := assocSet st.contexts (sendContextId p f2)
            ((lookupAssoc st.contexts (sendContextId p f2)).getD [] ++ [f1]) }) := by
  simp [handle_message_send, hk]

theorem handle_tasks_cancel_notfound {st : AgentState} {tid? : Option String}
    (fm : String) (now : Nat) (hk : taskByOptId st tid? = none) :
    handle_tasks_cancel st tid? fm now =
      (.error { code := -32001, message := "Task not found" }, st) := by
  simp [handle_tasks_cancel, hk]

theorem handle_tasks_cancel_terminal {st : AgentState} {tid? : Option String}
    {task_id : String} {task : A2ATask} (fm : String) (now : Nat)
    (hk : taskByOptId st tid? = some (task_id, task))
    (hterm : terminalState task.status.state = true) :
    handle_tasks_cancel st tid? fm now =
      (.error { code := -32002, message := "Task cannot be canceled" }, st) := by
  simp [handle_tasks_cancel, hk, hterm]

theorem handle_tasks_cancel_live {st : AgentState} {tid? : Option String}
    {task_id : String} {task : A2ATask} (fm : String) (now : Nat)
    (hk : taskByOptId st tid? = some (task_id, task))
    (hterm : terminalState task.status.state = false) :
    handle_tasks_cancel st tid? fm now =
      (.ok (canceledVersion task task_id fm),
        { st with tasks := assocSet st.tasks task_id (canceledVersion task task_id fm) }) := by
  simp [handle_tasks_cancel, hk, hterm]

theorem lookupAssoc_assocSet_cases {α : Type} {l : List (String × α)} {k k' : String}
    {v w : α} (h : lookupAssoc (assocSet l k v) k' = some w) :
    (k' = k ∧ w = v) ∨ (k' ≠ k ∧ lookupAssoc l k' = some w) := by
  rw [lookupAssoc_assocSet] at h
  by_cases he : k' = k
  · left
    refine ⟨he, ?_⟩
    rw [if_pos (by simp [he])] at h
    exact (Option.some.inj h).symm
  · right
    refine ⟨he, ?_⟩
    rwa [if_neg (by simp [he])] at h

/-- How one protocol operation relates a stored task after the step to
the registry before it: either untouched, or a live task was moved by
`cancel` / `message/send` (timestamp kept, new state canceled,
completed or input-required), or the creation branch stored a brand-new
task (in a completed or input-required state, under an id that was
free whenever the operation drew fresh uuids). -/
theorem step_lookup_cases (st : AgentState) (op : Op) (tid : String) (t' : A2ATask)
    (ht' : lookupTask (stepState st op) tid = some t') :
    lookupTask st tid = some t'
    ∨ (∃ task, lookupTask st tid = some task
         ∧ terminalState task.status.state = false
         ∧ t'.status.timestamp = task.status.timestamp
         ∧ (t'.status.state = .canceled ∨ t'.status.state = .completed
             ∨ t'.status.state = .inputRequired))
    ∨ ((opFresh st op = true → lookupTask st tid = none)
         ∧ (t'.status.state = .completed ∨ t'.status.state = .inputRequired)) := by
  cases op with
  | get p => exact Or.inl ht'
  | cancel tid? fm now =>
    cases hk : taskByOptId st tid? with
    | none =>
      rw [show stepState st (Op.cancel tid? fm now) = (handle_tasks_cancel st tid? fm now).2
        from rfl, handle_tasks_cancel_notfound fm now hk] at ht'
      exact Or.inl ht'
    | some pr =>
      obtain ⟨task_id, task⟩ := pr
      cases hterm : terminalState task.status.state with
      | true =>
        rw [show stepState st (Op.cancel tid? fm now) = (handle_tasks_cancel st tid? fm now).2
          from rfl, handle_tasks_cancel_terminal fm now hk hterm] at ht'
        exact Or.inl ht'
      | false =>
        rw [show stepState st (Op.cancel tid? fm now) = (handle_tasks_cancel st tid? fm now).2
          from rfl, handle_tasks_cancel_live fm now hk hterm] at ht'
        have ht'' : lookupAssoc (assocSet st.tasks task_id (canceledVersion task task_id fm)) tid
            = some t' := ht'
        rcases lookupAssoc_assocSet_cases ht'' with ⟨he, hw⟩ | ⟨hne, hl⟩
        · subst he
          right; left
          refine ⟨task, taskByOptId_some hk, hterm, ?_, Or.inl ?_⟩
          · rw [hw]; exact canceledVersion_timestamp task tid fm
          · rw [hw]; exact canceledVersion_state task tid fm
        · exact Or.inl hl
  | send p f1 f2 f3 o now =>
    cases hk : taskByOptId st p.taskId with
    | none =>
      rw [show stepState st (Op.send p f1 f2 f3 o now) =
        (handle_message_send st p f1 f2 f3 o now).2 from rfl,
        handle_message_send_new f1 f2 f3 o now hk] at ht'
      have ht'' : lookupAssoc (assocSet st.tasks f1 (createdTask p f1 f2 f3 o now)) tid
          = some t' := ht'
      rcases lookupAssoc_assocSet_cases ht'' with ⟨he, hw⟩ | ⟨hne, hl⟩
      · subst he
        right; right
        constructor
        · intro hfr
          have hfr' : (lookupTask st tid).isNone = true := by
            simpa [opFresh, hk] using hfr
          exact Option.isNone_iff_eq_none.mp hfr'
        · rw [hw]; exact createdTask_state p tid f2 f3 o now
      · exact Or.inl hl
    | some pr =>
      obtain ⟨task_id, task⟩ := pr
      cases hterm : terminalState task.status.state with
      | true =>
        rw [show stepState st (Op.send p f1 f2 f3 o now) =
          (handle_message_send st p f1 f2 f3 o now).2 from rfl,
          handle_message_send_terminal f1 f2 f3 o now hk hterm] at ht'
        exact Or.inl ht'
      | false =>
        rw [show stepState st (Op.send p f1 f2 f3 o now) =
          (handle_message_send st p f1 f2 f3 o now).2 from rfl,
          handle_message_send_live f1 f2 f3 o now hk hterm] at ht'
        have ht'' : lookupAssoc
            (assocSet st.tasks task_id (continuedTask task task_id p f3 o)) tid
            = some t' := ht'
        rcases lookupAssoc_assocSet_cases ht'' with ⟨he, hw⟩ | ⟨hne, hl⟩
        · subst he
          right; left
          refine ⟨task, taskByOptId_some hk, hterm, ?_, ?_⟩
          · rw [hw]; exact continuedTask_timestamp task tid p f3 o
          · rw [hw]
            rcases continuedTask_state task tid p f3 o with h | h
            · exact Or.inr (Or.inl h)
            · exact Or.inr (Or.inr h)
        · exact Or.inl hl

/-- Every task stored in a reachable registry is in `INPUT_REQUIRED`,
`COMPLETED` or `CANCELED` (the `SUBMITTED` phase of a new task is
internal to the `message/send` call that creates it). -/
theorem reachable_stored_states {st : AgentState} (h : ReachableState st) :
    ∀ tid t, lookupTask st tid = some t →
      t.status.state = .inputRequired ∨ t.status.state = .completed ∨
        t.status.state = .canceled := by
  induction h with
  | init =>
    intro tid t ht
    simp [initialAgentState, lookupTask, lookupAssoc] at ht
  | step op _ ih =>
    intro tid t ht
    rcases step_lookup_cases _ _ _ _ ht with hA | ⟨task, _, _, _, hstates⟩ | ⟨_, hstates⟩
    · exact ih tid t hA
    · rcases hstates with h | h | h
      · exact Or.inr (Or.inr h)
      · exact Or.inr (Or.inl h)
      · exact Or.inl h
    · rcases hstates with h | h
      · exact Or.inr (Or.inl h)
      · exact Or.inl h

/-!
## Concrete fixtures used by counterexamples and witnesses
-/

/-- A task already in a terminal (`COMPLETED`) state. -/
def wCompletedTask : A2ATask :=
  { id := "t1", contextId := "c1"
    status := { state := .completed, timestamp := 0 }
    history := [], artifacts := [] }

/-- A registry holding only the completed task. -/
def wTermState : AgentState := { tasks := [("t1", wCompletedTask)], contexts := [] }

/-- A `message/send` request against task `t1`. -/
def c2p : SendParams := { messageId := "m9", taskId := some "t1" }

/-- First-turn oracle: the sub-dialog asks a follow-up question. -/
def cexOutcomeIR : TriageOutcome :=
  { response := "How long have you been experiencing these symptoms?"
    stageAfter := "generic" }

/-- Later-turn oracle: triage completes with a recommendation. -/
def cexOutcomeDone : TriageOutcome :=
  { response := "Assessment complete."
    triage_complete := true
    recommendation := "See a cardiologist"
    urgency_level := "urgent"
    doctor_type := "cardiologist"
    stageAfter := "assessment" }

/-- A first `message/send` with no task id. -/
def cexSend1 : SendParams := { messageId := "m1" }

/-- The registry after that first message created task `T1` at time 0. -/
def cexSt1 : AgentState :=
  stepState initialAgentState (.send cexSend1 "T1" "C1" "r1" cexOutcomeIR 0)

/-- The task stored under `T1` after the first message. -/
def cexTask1 : A2ATask := createdTask cexSend1 "T1" "C1" "r1" cexOutcomeIR 0

/-- A follow-up `message/send` continuing task `T1`. -/
def cexSend2 : SendParams := { messageId := "m2", taskId := some "T1" }

/-- The registry after the follow-up message completed `T1` at time 5. -/
def cexSt2 : AgentState :=
  stepState cexSt1 (.send cexSend2 "T2" "C2" "r2" cexOutcomeDone 5)

/-- The task stored under `T1` after the follow-up message. -/
def cexTask2 : A2ATask := continuedTask cexTask1 "T1" cexSend2 "r2" cexOutcomeDone

/-- A `message/send` naming a task id nobody registered. -/
def c1p : SendParams :=
  { messageId := "m1", taskId := some "unknown-id", parts := [MsgPart.text "hello"] }

/-- Result and registry of the unknown-id `message/send` on the empty
registry. -/
def c1res : Except ErrObj SendResult × AgentState :=
  handle_message_send initialAgentState c1p "T1" "C1" "r1" cexOutcomeIR 0

/-- A user message fixture. -/
def mUser : A2AMessage := { role := "user", parts := [MsgPart.text "hi"], messageId := "m" }

/-- A live task with 11 history entries. -/
def c4task : A2ATask :=
  { id := "t1", contextId := "c1"
    status := { state := .inputRequired, timestamp := 0 }
    history := List.replicate 11 mUser, artifacts := [] }

/-- A registry holding the 11-entry task. -/
def c4st : AgentState := { tasks := [("t1", c4task)], contexts := [] }

/-!
## Claim theorems
-/

/-- Claim C1, counterexample: `message/send` with the unknown task id
`unknown-id` on an empty registry does not fail with `TaskNotFound`
(error `-32001`); it succeeds, and exactly one new task appears in the
registry. -/
theorem c1_counterexample :
    exceptIsOk c1res.1 = true
    ∧ c1res.1 ≠ .error { code := -32001, message := "Task not found" }
    ∧ c1res.2.tasks.length = 1 := by
  refine ⟨rfl, ?_, rfl⟩
  intro h
  have h1 : exceptIsOk c1res.1 = true := rfl
  rw [h] at h1
  simp [exceptIsOk] at h1

/-- Claim C1 (amended): a `message/send` whose `taskId` is absent,
empty or unknown does not fail with `TaskNotFound`; it takes the
creation branch, registers one new task under a freshly drawn id (the
registry grows by one entry) and processes the message against it. -/
theorem c1_unknown_task_creates (st : AgentState) (p : SendParams)
    (f1 f2 f3 : String) (o : TriageOutcome) (now : Nat)
    (hk : taskByOptId st p.taskId = none)
    (hfresh : lookupTask st f1 = none) :
    exceptIsOk (handle_message_send st p f1 f2 f3 o now).1 = true
    ∧ (handle_message_send st p f1 f2 f3 o now).2.tasks.length = st.tasks.length + 1
    ∧ lookupTask (handle_message_send st p f1 f2 f3 o now).2 f1 =
        some (createdTask p f1 f2 f3 o now)
    ∧ (createdTask p f1 f2 f3 o now).id = f1 := by
  rw [handle_message_send_new f1 f2 f3 o now hk]
  refine ⟨exceptIsOk_sendReturn _ _, ?_, ?_, createdTask_id p f1 f2 f3 o now⟩
  · exact length_assocSet_of_absent _ _ _ hfresh
  · show lookupAssoc (assocSet st.tasks f1 _) f1 = _
    rw [lookupAssoc_assocSet]
    simp

/-- Claim C1, amended-theorem witness at a concrete input. -/
theorem c1_witness :
    exceptIsOk (handle_message_send initialAgentState c1p "T1" "C1" "r1" cexOutcomeIR 0).1 = true
    ∧ (handle_message_send initialAgentState c1p "T1" "C1" "r1" cexOutcomeIR 0).2.tasks.length
        = initialAgentState.tasks.length + 1
    ∧ lookupTask (handle_message_send initialAgentState c1p "T1" "C1" "r1" cexOutcomeIR 0).2 "T1" =
        some (createdTask c1p "T1" "C1" "r1" cexOutcomeIR 0)
    ∧ (createdTask c1p "T1" "C1" "r1" cexOutcomeIR 0).id = "T1" :=
  c1_unknown_task_creates initialAgentState c1p "T1" "C1" "r1" cexOutcomeIR 0 rfl rfl

/-- Claim C2: both `message/send` and `tasks/cancel` against a task in
a terminal state (`COMPLETED`, `FAILED` or `CANCELED`) return the typed
`-32002` error and leave the whole registry — hence the task, its
state, history and artifacts — exactly as it was; in particular a
second `cancel` of an already-canceled task never silently succeeds. -/
theorem c2_terminal_rejects (st : AgentState) (p : SendParams) (task_id : String)
    (task : A2ATask) (f1 f2 f3 fm : String) (o : TriageOutcome) (now now2 : Nat)
    (hk : taskByOptId st p.taskId = some (task_id, task))
    (hterm : terminalState task.status.state = true) :
    handle_message_send st p f1 f2 f3 o now =
      (.error { code := -32002, message := "Task cannot be restarted" }, st)
    ∧ handle_tasks_cancel st p.taskId fm now2 =
      (.error { code := -32002, message := "Task cannot be canceled" }, st) :=
  ⟨handle_message_send_terminal f1 f2 f3 o now hk hterm,
   handle_tasks_cancel_terminal fm now2 hk hterm⟩

/-- Claim C2, witness at a completed task. -/
theorem c2_witness :
    handle_message_send wTermState c2p "f1" "f2" "f3" cexOutcomeIR 7 =
      (.error { code := -32002, message := "Task cannot be restarted" }, wTermState)
    ∧ handle_tasks_cancel wTermState c2p.taskId "fm" 7 =
      (.error { code := -32002, message := "Task cannot be canceled" }, wTermState) :=
  c2_terminal_rejects wTermState c2p "t1" wCompletedTask "f1" "f2" "f3" "fm"
    cexOutcomeIR 7 7 rfl rfl

/-- Claim C3, counterexample: a first `message/send` whose triage
processing reports `triage_complete` moves the freshly created task
from `SUBMITTED` straight to `COMPLETED` — a transition the claimed
graph (`Submitted` only to `InputRequired` or `Failed`) forbids. -/
theorem c3_counterexample :
    (lookupTask (stepState initialAgentState
        (.send cexSend1 "T1" "C1" "r1" cexOutcomeDone 0)) "T1").map
      (fun t => t.status.state) = some .completed
    ∧ ¬ (TaskState.completed = .inputRequired ∨ TaskState.completed = .failed) := by
  refine ⟨rfl, ?_⟩
  decide

/-- Claim C3 (amended): over any reachable registry and any operation
(with fresh uuids), a stored task moves only along the graph
`Submitted → InputRequired | Completed | Failed` and
`InputRequired → InputRequired | Completed | Failed | Canceled`, and
never leaves a terminal state; a task created by the operation
(starting in `SUBMITTED` inside the call) is stored in `InputRequired`
or `Completed`. -/
theorem c3_transitions (st : AgentState) (op : Op) (tid : String) (t' : A2ATask)
    (hreach : ReachableState st) (hfresh : opFresh st op = true)
    (ht' : lookupTask (stepState st op) tid = some t') :
    (∀ t, lookupTask st tid = some t → transOK t.status.state t'.status.state) ∧
    (lookupTask st tid = none →
      t'.status.state = .inputRequired ∨ t'.status.state = .completed) := by
  rcases step_lookup_cases st op tid t' ht' with
    hA | ⟨task, hsome, htermF, _, hstates⟩ | ⟨hnoneF, hstates⟩
  · constructor
    · intro t htt
      have e : t' = t := Option.some.inj (hA.symm.trans htt)
      rw [e]
      exact Or.inl rfl
    · intro hnone
      rw [hnone] at hA
      cases hA
  · constructor
    · intro t htt
      have e : task = t := Option.some.inj (hsome.symm.trans htt)
      subst e
      have hinv := reachable_stored_states hreach tid task hsome
      have hir : task.status.state = .inputRequired := by
        rcases hinv with h | h | h
        · exact h
        · exfalso; rw [h] at htermF; simp [terminalState] at htermF
        · exfalso; rw [h] at htermF; simp [terminalState] at htermF
      rw [hir]
      rcases hstates with h | h | h
      · exact Or.inr (Or.inr ⟨rfl, Or.inr (Or.inr h)⟩)
      · exact Or.inr (Or.inr ⟨rfl, Or.inl h⟩)
      · exact Or.inl h.symm
    · intro hnone
      rw [hnone] at hsome
      cases hsome
  · constructor
    · intro t htt
      rw [hnoneF hfresh] at htt
      cases htt
    · intro _
      rcases hstates with h | h
      · exact Or.inr h
      · exact Or.inl h

/-- Claim C3, amended-theorem witness: the second `message/send`
against the reachable registry `cexSt1`. -/
theorem c3_witness :
    (∀ t, lookupTask cexSt1 "T1" = some t → transOK t.status.state cexTask2.status.state) ∧
    (lookupTask cexSt1 "T1" = none →
      cexTask2.status.state = .inputRequired ∨ cexTask2.status.state = .completed) :=
  c3_transitions cexSt1 (.send cexSend2 "T2" "C2" "r2" cexOutcomeDone 5) "T1" cexTask2
    (ReachableState.step (.send cexSend1 "T1" "C1" "r1" cexOutcomeIR 0) ReachableState.init)
    rfl rfl

/-- Claim C8, counterexample: task `T1` is created at time 0; the
follow-up `message/send` at time 5 moves it to `COMPLETED`, yet the
status timestamp still reads 0 — no fresh timestamp was recorded at
the transition. -/
theorem c8_counterexample :
    (lookupTask cexSt2 "T1").map (fun t => (t.status.state, t.status.timestamp)) =
      some (.completed, 0)
    ∧ (0 : Nat) ≠ 5 := by
  refine ⟨rfl, ?_⟩
  decide

/-- Claim C8 (amended): no state transition records a fresh timestamp:
for any operation (with fresh uuids) and any task stored both before
and after it, the status timestamp after the operation equals the one
before — it is set only when the `TaskStatus` object is created. -/
theorem c8_transitions_keep_timestamp (st : AgentState) (op : Op) (tid : String)
    (t t' : A2ATask) (hfresh : opFresh st op = true)
    (h1 : lookupTask st tid = some t)
    (h2 : lookupTask (stepState st op) tid = some t') :
    t'.status.timestamp = t.status.timestamp := by
  rcases step_lookup_cases st op tid t' h2 with
    hA | ⟨task, hsome, _, hts, _⟩ | ⟨hnoneF, _⟩
  · have e : t' = t := Option.some.inj (hA.symm.trans h1)
    rw [e]
  · have e : task = t := Option.some.inj (hsome.symm.trans h1)
    rw [hts, e]
  · rw [hnoneF hfresh] at h1
    cases h1

/-- Claim C8, amended-theorem witness: the completing `message/send`
at time 5 keeps the creation-time timestamp of `cexTask1`. -/
theorem c8_witness :
    cexTask2.status.timestamp = cexTask1.status.timestamp :=
  c8_transitions_keep_timestamp cexSt1 (.send cexSend2 "T2" "C2" "r2" cexOutcomeDone 5)
    "T1" cexTask1 cexTask2 rfl rfl rfl

/-- Claim C4, counterexample: `tasks/get` on a task with 11 history
entries, with the `historyLength` parameter absent, returns only 10
entries — the absent parameter defaults to 10 instead of meaning
"no truncation". -/
theorem c4_counterexample :
    (handle_tasks_get c4st { id := some "t1" }).map (fun t => t.history.length) = .ok 10
    ∧ (10 : Nat) ≠ 11 := by
  refine ⟨rfl, ?_⟩
  decide

/-- Claim C4 (amended): the effective limit of `tasks/get` is the
provided `historyLength` when present and 10 when absent; whenever that
effective limit is nonzero, the returned task carries a suffix of the
stored history of length `min (stored length) limit` — so an absent
parameter truncates an 11-entry history to the most recent 10, and a
provided nonzero limit truncates to the most recent `historyLength`
entries when the history is longer (and returns it whole otherwise).
The stored task itself is not modified (the handler reads the registry
and returns a copy). -/
theorem c4_get_default_truncates (st : AgentState) (p : GetParams) (tid : String)
    (task : A2ATask) (hk : taskByOptId st p.id = some (tid, task))
    (hnz : p.historyLength.getD 10 ≠ 0) :
    ∃ t', handle_tasks_get st p = .ok t'
      ∧ t'.history.length = min task.history.length (p.historyLength.getD 10)
      ∧ t'.history <:+ task.history := by
  unfold handle_tasks_get
  rw [hk]
  by_cases hlen : task.history.length > p.historyLength.getD 10
  · have hc : ((p.historyLength.getD 10 != 0)
        && decide (task.history.length > p.historyLength.getD 10)) = true := by
      simp [hlen, hnz]
    simp only [hc, if_true]
    refine ⟨_, rfl, ?_, ?_⟩
    · simp only [List.length_drop]
      omega
    · exact ⟨task.history.take _, List.take_append_drop _ _⟩
  · have hc : ((p.historyLength.getD 10 != 0)
        && decide (task.history.length > p.historyLength.getD 10)) = false := by
      simp [hlen]
    simp only [hc, Bool.false_eq_true, if_false]
    refine ⟨task, rfl, by omega, List.suffix_refl _⟩

/-- Claim C4, amended-theorem witness on the 11-entry task: the absent
parameter (effective limit 10) and a provided limit of 3 both truncate
as stated. -/
theorem c4_witness :
    (∃ t', handle_tasks_get c4st { id := some "t1" } = .ok t'
      ∧ t'.history.length =
          min c4task.history.length ((none : Option Nat).getD 10)
      ∧ t'.history <:+ c4task.history)
    ∧ (∃ t', handle_tasks_get c4st { id := some "t1", historyLength := some 3 } = .ok t'
      ∧ t'.history.length =
          min c4task.history.length ((some 3 : Option Nat).getD 10)
      ∧ t'.history <:+ c4task.history) :=
  ⟨c4_get_default_truncates c4st { id := some "t1" } "t1" c4task rfl (by decide),
   c4_get_default_truncates c4st { id := some "t1", historyLength := some 3 } "t1" c4task
     rfl (by decide)⟩

/-- Claim C10, counterexample: on the 11-entry task, `historyLength = 0`
returns all 11 entries while an absent `historyLength` returns 10 —
a zero limit does give the complete history, but it is not treated the
same as an absent limit. -/
theorem c10_counterexample :
    (handle_tasks_get c4st { id := some "t1", historyLength := some 0 }).map
      (fun t => t.history.length) = .ok 11
    ∧ (handle_tasks_get c4st { id := some "t1" }).map
      (fun t => t.history.length) = .ok 10
    ∧ (11 : Nat) ≠ 10 := by
  refine ⟨rfl, rfl, ?_⟩
  decide

/-- Claim C10 (amended): `tasks/get` with `historyLength = 0` skips
truncation (`if history_length` is falsy on 0) and returns the stored
task with its complete history — never zero entries; this differs from
an absent `historyLength`, which defaults to 10 and truncates. -/
theorem c10_zero_limit_full_history (st : AgentState) (p : GetParams) (tid : String)
    (task : A2ATask) (hk : taskByOptId st p.id = some (tid, task))
    (hz : p.historyLength = some 0) :
    handle_tasks_get st p = .ok task := by
  unfold handle_tasks_get
  rw [hz, hk]
  simp

/-- Claim C10, amended-theorem witness on the 11-entry task. -/
theorem c10_witness :
    handle_tasks_get c4st { id := some "t1", historyLength := some 0 } = .ok c4task :=
  c10_zero_limit_full_history c4st { id := some "t1", historyLength := some 0 }
    "t1" c4task rfl rfl

/-- Claim C5, counterexample: when the `requests.post` call inside
`LLMClient.process` raises (timeout, connection error), the exception
propagates out of the gateway instead of the canned fallback being
returned — there is no try/except around the request. -/
theorem c5_counterexample :
    LLMClient_process (.raised "requests.exceptions.ConnectionError") =
      .error "requests.exceptions.ConnectionError"
    ∧ LLMClient_process (.raised "requests.exceptions.ConnectionError") ≠
      .ok cannedFallback := by
  refine ⟨rfl, ?_⟩
  intro h
  cases h

/-- Claim C5 (amended): for transport outcomes that do return a
response, every failure — non-200 status, missing choices content, or
unparseable model output — makes `LLMClient.process` return the canned
clarifying reply with an empty extracted-field map; only a raised
request exception escapes. -/
theorem c5_response_failures_fall_back (status : Nat) (choicesContent : Option String)
    (parsed : Option LLMResult)
    (h : status ≠ 200 ∨ choicesContent = none ∨ parsed = none) :
    LLMClient_process (.response status choicesContent parsed) = .ok cannedFallback
    ∧ cannedFallback.extract = [] := by
  refine ⟨?_, rfl⟩
  show (match LLMTransport.response status choicesContent parsed with
    | .raised msg => Except.error msg
    | .response status choicesContent parsed =>
      if status == 200 then
        match choicesContent with
        | some _ =>
          match parsed with
          | some r => Except.ok r
          | none => Except.ok cannedFallback
        | none => Except.ok cannedFallback
      else Except.ok cannedFallback) = Except.ok cannedFallback
  dsimp only
  rcases h with h | h | h
  · rw [if_neg (by simpa using h)]
  · subst h
    by_cases hs : status == 200
    · rw [if_pos hs]
    · rw [if_neg hs]
  · subst h
    by_cases hs : status == 200
    · rw [if_pos hs]
      cases choicesContent <;> rfl
    · rw [if_neg hs]

/-- Claim C5, amended-theorem witness: a 500 response. -/
theorem c5_witness :
    LLMClient_process (.response 500 none none) = .ok cannedFallback
    ∧ cannedFallback.extract = [] :=
  c5_response_failures_fall_back 500 none none (Or.inl (by decide))

/-- Claim C9: `get_completion_percentage` equals the count of required
fields holding truthy values over the fixed eight-element
required-field set, times 100, and always lies in `[0, 100]`; it is a
pure function of the current session data (the embedding passes the
data explicitly, so no call can mutate it). -/
theorem c9_completion_percentage (data : List (String × String)) :
    get_completion_percentage data =
      (((va_required_fields.filter (fun f =>
          match lookupAssoc data f with
          | some v => v != ""
          | none => false)).length : ℚ) / 8) * 100
    ∧ 0 ≤ get_completion_percentage data
    ∧ get_completion_percentage data ≤ 100 := by
  have hlen : (va_required_fields.length : ℚ) = 8 := by norm_num [va_required_fields]
  have hcount : (va_required_fields.filter (fun f =>
      match lookupAssoc data f with
      | some v => v != ""
      | none => false)).length ≤ 8 := by
    have := List.length_filter_le (fun f =>
      match lookupAssoc data f with
      | some v => v != ""
      | none => false) va_required_fields
    simpa [va_required_fields] using this
  set c := (va_required_fields.filter (fun f =>
      match lookupAssoc data f with
      | some v => v != ""
      | none => false)).length with hc
  have heq : get_completion_percentage data = ((c : ℚ) / 8) * 100 := by
    rw [get_completion_percentage, hlen]
  refine ⟨heq, ?_, ?_⟩
  · rw [heq]
    positivity
  · rw [heq]
    have hcq : (c : ℚ) ≤ 8 := by exact_mod_cast hcount
    nlinarith

theorem lookupAssoc_cons {α : Type} (k1 : String) (v1 : α) (rest : List (String × α))
    (k : String) :
    lookupAssoc ((k1, v1) :: rest) k =
      if k1 == k then some v1 else lookupAssoc rest k := by
  by_cases h : (k1 == k) = true <;> simp [lookupAssoc, List.find?, h]

theorem lastValue_cons (p : String × String) (rest : List (String × String)) (k : String) :
    lastValue (p :: rest) k =
      orElseOpt (lastValue rest k) (if p.1 == k then some p.2 else none) := rfl

theorem mergeExtract_http_lookup (extract : List (String × String))
    (data : List (String × String)) (k : String) :
    lookupAssoc (mergeExtract_http data extract) k =
      orElseOpt (lastValue extract k) (lookupAssoc data k) := by
  induction extract generalizing data with
  | nil => simp [mergeExtract_http, lastValue, orElseOpt]
  | cons p rest ih =>
    have hstep : mergeExtract_http data (p :: rest) =
        mergeExtract_http (assocSet data p.1 p.2) rest := rfl
    rw [hstep, ih, lookupAssoc_assocSet,
      show lastValue (p :: rest) k =
        orElseOpt (lastValue rest k) (if p.1 == k then some p.2 else none) from rfl]
    cases hl : lastValue rest k with
    | some v => simp [orElseOpt]
    | none =>
      by_cases hk : k = p.1
      · simp [orElseOpt, hk]
      · have h1 : (k == p.1) = false := by simp [hk]
        have h2 : (p.1 == k) = false := by simp; exact fun e => hk e.symm
        simp [orElseOpt, h1, h2]

theorem mergeExtract_a2a_lookup (extract : List (String × String))
    (data : List (String × String)) (k : String) :
    lookupAssoc (mergeExtract_a2a data extract) k =
      orElseOpt (lastNonEmptyValue extract k) (lookupAssoc data k) := by
  induction extract generalizing data with
  | nil => simp [mergeExtract_a2a, lastNonEmptyValue, lastValue, orElseOpt]
  | cons p rest ih =>
    by_cases hv : (p.2 != "") = true
    · have hstep : mergeExtract_a2a data (p :: rest) =
          mergeExtract_a2a (assocSet data p.1 p.2) rest := by
        simp only [mergeExtract_a2a, List.foldl_cons, hv, if_true]
      have hfil : lastNonEmptyValue (p :: rest) k =
          orElseOpt (lastNonEmptyValue rest k) (if p.1 == k then some p.2 else none) := by
        simp [lastNonEmptyValue, List.filter_cons, hv, lastValue]
      rw [hstep, ih, lookupAssoc_assocSet, hfil]
      cases hl : lastNonEmptyValue rest k with
      | some v => simp [orElseOpt]
      | none =>
        by_cases hk : k = p.1
        · simp [orElseOpt, hk]
        · have h1 : (k == p.1) = false := by simp [hk]
          have h2 : (p.1 == k) = false := by simp; exact fun e => hk e.symm
          simp [orElseOpt, h1, h2]
    · have hv' : (p.2 != "") = false := by
        cases hx : (p.2 != "")
        · rfl
        · exact absurd hx hv
      have hstep : mergeExtract_a2a data (p :: rest) = mergeExtract_a2a data rest := by
        simp only [mergeExtract_a2a, List.foldl_cons, hv', Bool.false_eq_true, if_false]
      have hfil : lastNonEmptyValue (p :: rest) k = lastNonEmptyValue rest k := by
        simp [lastNonEmptyValue, List.filter_cons, hv']
      rw [hstep, ih, hfil]

/-- Claim C6, counterexample: the `va_http_mcp.py` merge
(`self.session.data.update(...)`) overwrites the non-empty stored value
`Alice` of `name` with the empty returned value — a field already
holding a non-empty value is not left unchanged, and the empty returned
value is no explicit change. -/
theorem c6_counterexample :
    lookupAssoc (mergeExtract_http [("name", "Alice")] [("name", "")]) "name" = some ""
    ∧ ("Alice" : String) ≠ "" := by
  refine ⟨rfl, ?_⟩
  decide

/-- Claim C6 (amended): per field, the `va_a2a_mcp.py` merge leaves the
stored value only when the extraction returns no non-empty value for
that field, and otherwise overwrites it — even a non-empty stored
value — with the last non-empty returned value; the `va_http_mcp.py`
merge overwrites with the last returned value unconditionally, empty
or not.  (The a2a merge prints each write with the new value only;
neither variant logs an old-vs-new diff.) -/
theorem c6_merge_semantics (data extract : List (String × String)) (k : String) :
    lookupAssoc (mergeExtract_a2a data extract) k =
      orElseOpt (lastNonEmptyValue extract k) (lookupAssoc data k)
    ∧ lookupAssoc (mergeExtract_http data extract) k =
      orElseOpt (lastValue extract k) (lookupAssoc data k) :=
  ⟨mergeExtract_a2a_lookup extract data k, mergeExtract_http_lookup extract data k⟩

/-- A session that already satisfies the discovery gate
(non-empty `name`, `date_of_birth`, `state`). -/
def c7wls : LoopState :=
  { session := { data :=
      [("name", "Jane Roe"), ("date_of_birth", "01/02/1990"), ("state", "California")] } }

/-- An extraction result that requests discovery. -/
def c7wr : LLMResult := { response := "Let me check your insurance.", call_discovery := true }

/-- A turn oracle: recognised speech, the discovery-requesting LLM
result, and a successful discovery call. -/
def c7wo : TurnOracle :=
  { listen := .heard "please look up my insurance"
    llm := .ok c7wr
    discoveryOk := true
    discoveryPayer := "Acme Health"
    discoveryMemberId := "MBR-1" }

/-- Claim C7, counterexample: with `name`, `date_of_birth` and `state`
already collected, two consecutive turns whose extraction results both
request discovery fire the Insurance discovery call twice in the same
session — there is no once-per-session guard. -/
theorem c7_counterexample : (runTurns c7wls [c7wo, c7wo]).2 = 2 := rfl

/-- Claim C7 (amended): on every turn with recognised, non-goodbye
input, outside triage mode, whose extraction succeeds and does not
request the triage sub-dialog, the discovery call fires exactly when
the extraction result requests it and the merged session data holds
non-empty `name`, `date_of_birth` and `state` — independent of whether
discovery already fired earlier in the session, so it can fire on
arbitrarily many turns. -/
theorem c7_discovery_fires_per_turn (ls : LoopState) (o : TurnOracle) (u : String)
    (r : LLMResult)
    (hl : o.listen = .heard u)
    (hg : containsGoodbye u = false)
    (ht : ls.session.in_triage_mode = false)
    (hr : o.llm = .ok r)
    (hnt : r.need_triage = false) :
    (runTurn ls o).2.discoveryFired =
      (r.call_discovery && requiredPresent (mergeExtract_a2a ls.session.data r.extract)
        ["name", "date_of_birth", "state"]) := by
  simp only [runTurn, hl, addInteraction, hg, Bool.false_eq_true, if_false, ht, hr, hnt,
    Bool.false_and, Bool.and_false]
  by_cases hd : r.done <;> simp [hd]

/-- Claim C7, amended-theorem witness at the concrete session. -/
theorem c7_witness :
    (runTurn c7wls c7wo).2.discoveryFired =
      (c7wr.call_discovery
        && requiredPresent (mergeExtract_a2a c7wls.session.data c7wr.extract)
          ["name", "date_of_birth", "state"]) :=
  c7_discovery_fires_per_turn c7wls c7wo "please look up my insurance" c7wr
    rfl rfl rfl rfl rfl
